import Mathlib

/-!
Verification of the light-monitoring bot's state-reconciliation engine
(final iteration: the express server with DTEK outage scraping, mode
classification and Google-Sheets persistence).

Modelling conventions, shared by all definitions below:

* Wall-clock instants are integers (`Int`).  The server stores timestamps as
  formatted strings and parses them back with `parseDateTime`; here a stored
  timestamp field is `Option Int`, where `none` stands for an empty (or
  whitespace-only) cell and `some t` for a cell holding a timestamp that
  parses to the instant `t`.  `parseDateTime` in the source falls back to
  "now" for an empty string, which `Option.getD now` reproduces.
* Durations are integer seconds; `formatDuration` mirrors luxon's
  `toFormat('hh:mm:ss')` rendering of a diff, up to sub-second rounding.
* Effectful operations (sheet writes, Telegram sends) are modelled by
  returning the updated record together with the list of notification texts
  the operation requests from the send queue.
-/

/-- Constant `PING_TIMEOUT_SEC` from the server: liveness timeout in seconds. -/
def PING_TIMEOUT_SEC : Int := 180

/-- Constant `DTEK_CACHE_TTL_MS` from the server:
`DTEK_CHECK_MINUTES * 60_000` milliseconds. -/
def DTEK_CACHE_TTL_MS : Int := 15 * 60000

/-- Two-digit zero padding used when rendering `hh:mm:ss`. -/
def pad2 (n : Nat) : String :=
  if n < 10 then "0" ++ toString n else toString n

/-- Hours/minutes/seconds decomposition of a duration given in seconds
(negative durations clamp to zero, as they never arise on the paths the
server exercises). -/
def durationHMS (secs : Int) : Nat × Nat × Nat :=
  (secs.toNat / 3600, (secs.toNat % 3600) / 60, secs.toNat % 60)

/-- Rendering of a duration as `hh:mm:ss`, mirroring
`duration.toFormat('hh:mm:ss')` on the luxon diff the server stores into the
`previous_duration` column. -/
def formatDuration (secs : Int) : String :=
  let hms := durationHMS secs
  pad2 hms.1 ++ ":" ++ pad2 hms.2.1 ++ ":" ++ pad2 hms.2.2

/-- Whitespace test used by `jsTrim` (the whitespace classes relevant to the
sheet's cell contents). -/
def isWS (c : Char) : Bool :=
  c = ' ' || c = '\t' || c = '\n' || c = '\r'

/-- Leading-whitespace removal on a character list. -/
def trimLeftChars : List Char → List Char
  | [] => []
  | c :: cs => if isWS c then trimLeftChars cs else c :: cs

/-- JavaScript's `String.prototype.trim()`: strips whitespace from both
ends. -/
def jsTrim (s : String) : String :=
  ⟨(trimLeftChars (trimLeftChars s.data).reverse).reverse⟩

/-- One subscriber row of the `LightStates` sheet, as produced by
`SheetsDB.parseRow`: `light_state`/`ignored` are already coerced to booleans,
the two timestamp columns are abstracted per the module conventions, and the
remaining columns are the raw cell strings. -/
structure Row where
  chat_id : String
  last_ping_time : Option Int
  light_state : Bool
  light_start_time : Option Int
  previous_duration : String
  pinned_message_id : String
  city : String
  street : String
  house_number : String
  ignored : Bool
  mode : String
  deriving Repr, DecidableEq

/-- Behaviour of `parseDateTime` on a stored timestamp field: a parseable
cell yields its instant, an empty cell falls back to `now` (the source also
falls back to `now` on a malformed cell, a case the `Option` abstraction
folds into `none`). -/
def parseDateTime (field : Option Int) (now : Int) : Int :=
  field.getD now

/-- Predicate `hasAddress` as computed inside `determineMode`:
`row.city?.trim() && row.street?.trim()` both non-empty. -/
def hasAddress (row : Row) : Bool :=
  jsTrim row.city != "" && jsTrim row.street != ""

/-- Predicate `hasPing` as computed inside `determineMode`:
`row.last_ping_time?.trim()` non-empty (a liveness timestamp is present). -/
def hasPing (row : Row) : Bool :=
  row.last_ping_time.isSome

/-- Function `determineMode` from the server: classifies a (possibly missing) row into
`'none' | 'ping' | 'dtek_only' | 'full'` from the two predicates
`hasAddress` and `hasPing`.  These are the code's names for the spec's
`none` / `ping_only` / `outage_only` / `full` modes. -/
def determineMode (row : Option Row) : String :=
  match row with
  | none => "none"
  | some r =>
    if !hasAddress r && !hasPing r then "none"
    else if !hasAddress r && hasPing r then "ping"
    else if hasAddress r && !hasPing r then "dtek_only"
    else if hasAddress r && hasPing r then "full"
    else "none"

/-- C7: the classifier is a total function of the two predicates with exactly
the four mapped outcomes. -/
theorem determineMode_total (r : Row) :
    determineMode (some r) =
      match hasAddress r, hasPing r with
      | false, false => "none"
      | false, true  => "ping"
      | true,  false => "dtek_only"
      | true,  true  => "full" := by
  unfold determineMode
  cases h1 : hasAddress r <;> cases h2 : hasPing r <;> simp [h1, h2]

/-- One per-house outage record of the source's street map, as consumed by
`fetchAndSummarizeDtek` (absent JSON fields are the empty string / the empty
list). -/
structure HouseRecord where
  sub_type : String
  start_date : String
  end_date : String
  sub_type_reason : List String
  deriving Repr, DecidableEq

/-- Default used where the code falls back to `data[keyToUse] || {}`. -/
def emptyHouseRecord : HouseRecord := ⟨"", "", "", []⟩

/-- Successful result of `fetchData(city, street, house)`: the per-house map,
the source's freshness marker (abstracted to the instant the marker string
denotes, `none` when absent or unparseable), the alias key inferred from the
preset mapping, and the street-level current-outage flag. -/
structure FetchResult where
  data : List (String × HouseRecord)
  updateTimestamp : Option Int
  resolvedHomeKey : Option String
  showCurOutageParam : Bool
  deriving Repr, DecidableEq

/-- Outcome of one call to the scraping client seen by
`fetchAndSummarizeDtek`: an exception, a `null` result (network error or the
source reporting no result — `fetchData` itself maps both to `null`), or a
parsed street map. -/
inductive FetchOutcome where
  | failure : FetchOutcome
  | noResult : FetchOutcome
  | success : FetchResult → FetchOutcome
  deriving Repr, DecidableEq

/-- The Outage Summary the interpreter produces (the `updateTimestamp` field
is attached only on the success branches). -/
structure DtekSummary where
  inferredOff : Bool
  message : String
  updateTimestamp : Option Int
  deriving Repr, DecidableEq

/-- Address line `addressText` interpolated into the interpreter's messages. -/
def addressText (city street house : String) : String :=
  if house != "" then city ++ ", " ++ street ++ ", " ++ house
  else city ++ ", " ++ street ++ " (вся улица)"

/-- Rendering of the abstracted freshness marker inside message text. -/
def renderUpdateTs : Option Int → String
  | some t => toString t
  | none => "undefined"

/-- Shared "no outage at this address" message of the interpreter. -/
def noOutageMsg (addr : String) (uts : Option Int) : String :=
  "По адресу " ++ addr ++ " отключений нет. Обновлено: " ++ renderUpdateTs uts

/-- Predicate `isActive` from the street-level branch: a record is active
when its type, start or end field is non-empty after trimming. -/
def isActive (x : HouseRecord) : Bool :=
  jsTrim x.sub_type != "" || jsTrim x.start_date != "" || jsTrim x.end_date != ""

/-- Calendar key of a `HH:mm dd.MM.yyyy` string; chronological order of valid
instants coincides with lexicographic order on `(y, mo, d, h, mi)`. -/
structure DateKey where
  y : Nat
  mo : Nat
  d : Nat
  h : Nat
  mi : Nat
  deriving Repr, DecidableEq

/-- Chronological (lexicographic) strict order on calendar keys, mirroring
luxon's `<` on the parsed instants. -/
def ltKey (a b : DateKey) : Bool :=
  if a.y ≠ b.y then decide (a.y < b.y)
  else if a.mo ≠ b.mo then decide (a.mo < b.mo)
  else if a.d ≠ b.d then decide (a.d < b.d)
  else if a.h ≠ b.h then decide (a.h < b.h)
  else decide (a.mi < b.mi)

/-- Parsing of the exact shape `HH:mm dd.MM.yyyy` that luxon's
`DateTime.fromFormat` accepts here; finer calendar validity (such as the
day count of each month) is abstracted to simple range checks. -/
def parseHMDate (s : String) : Option DateKey :=
  match s.splitOn " " with
  | [time, date] =>
    match time.splitOn ":", date.splitOn "." with
    | [hh, mi], [dd, mo, yy] =>
      match hh.toNat?, mi.toNat?, dd.toNat?, mo.toNat?, yy.toNat? with
      | some h, some m, some d, some M, some y =>
        if h < 24 ∧ m < 60 ∧ 1 ≤ d ∧ d ≤ 31 ∧ 1 ≤ M ∧ M ≤ 12 then
          some ⟨y, M, d, h, m⟩
        else none
      | _, _, _, _, _ => none
    | _, _ => none
  | _ => none

/-- Helper `parseMaybe` from the street-level branch: empty or untrimmable
strings parse to nothing. -/
def parseMaybe (s : String) : Option DateKey :=
  if jsTrim s == "" then none else parseHMDate (jsTrim s)

/-- Rendering `toFormat('HH:mm dd.MM.yyyy')` of a calendar key. -/
def formatKey (k : DateKey) : String :=
  pad2 k.h ++ ":" ++ pad2 k.mi ++ " " ++ pad2 k.d ++ "." ++ pad2 k.mo ++ "." ++ toString k.y

/-- Reduction `starts.reduce((a,b) => a < b ? a : b)` over a possibly empty
list. -/
def minKey : List DateKey → Option DateKey
  | [] => none
  | x :: xs => some (xs.foldl (fun a b => if ltKey a b then a else b) x)

/-- Reduction `ends.reduce((a,b) => a > b ? a : b)` over a possibly empty
list. -/
def maxKey : List DateKey → Option DateKey
  | [] => none
  | x :: xs => some (xs.foldl (fun a b => if ltKey b a then a else b) x)

/-- Insertion-ordered de-duplication, as `[...new Set(xs)]` produces. -/
def dedupKeepFirst (l : List String) : List String :=
  l.foldl (fun acc x => if acc.contains x then acc else acc ++ [x]) []

/-- Street-level synthesized message of the interpreter's tier 2. -/
def streetLevelMsg (addr : String) (uts : Option Int) (reasons : List String)
    (minStart maxEnd : Option DateKey) : String :=
  let startText := match minStart with | some k => formatKey k | none => "Не указано"
  let endText := match maxEnd with | some k => formatKey k | none => "Не указано"
  let reasonsText := if reasons.length ≠ 0 then String.intercalate ", " reasons else "Не указано"
  "Обновлено: " ++ renderUpdateTs uts ++ "\n\nАдрес: " ++ addr ++
    "\nСтатус: Зафиксировано ограничение/отключение по улице\nПричины: " ++ reasonsText ++
    "\nНачало: " ++ startText ++ "\nОкончание: " ++ endText

/-- Per-house message of the interpreter's tier 1 (`x || 'Не указано'`
fallbacks included). -/
def houseLevelMsg (addr : String) (uts : Option Int) (houseData : HouseRecord) : String :=
  let reasonsJoined := String.intercalate ", " houseData.sub_type_reason
  "Обновлено: " ++ renderUpdateTs uts ++ "\n\nАдрес: " ++ addr ++
    "\nТип: " ++ (if houseData.sub_type == "" then "Не указано" else houseData.sub_type) ++
    "\nНачало: " ++ (if houseData.start_date == "" then "Не указано" else houseData.start_date) ++
    "\nОкончание: " ++ (if houseData.end_date == "" then "Не указано" else houseData.end_date) ++
    "\nТип причины: " ++ (if reasonsJoined == "" then "Не указано" else reasonsJoined)

/-- Key selection
`(resolvedHomeKey && data?.[resolvedHomeKey]) ? resolvedHomeKey : house_number`. -/
def keyToUse (r : FetchResult) (house : String) : String :=
  match r.resolvedHomeKey with
  | some k => if (r.data.lookup k).isSome then k else house
  | none => house

/-- Record selection `data[keyToUse] || {}`. -/
def houseDataOf (r : FetchResult) (house : String) : HouseRecord :=
  (r.data.lookup (keyToUse r house)).getD emptyHouseRecord

/-- Function `fetchAndSummarizeDtek` from the server, as a pure function of
the fetch outcome: failure and no-result yield the neutral
`inferredOff = false` summaries; a parsed street map goes through the
three-tier interpretation (exact/resolved house record with a non-empty
type, street-level aggregate behind the current-outage flag, else "no
outage"). -/
def fetchAndSummarizeDtek (city street house : String) (outcome : FetchOutcome) : DtekSummary :=
  match outcome with
  | .failure => ⟨false, "Ошибка при получении данных.", none⟩
  | .noResult => ⟨false, "Не удалось получить данные для " ++ addressText city street house ++ ".", none⟩
  | .success r =>
    let addr := addressText city street house
    let houseData := houseDataOf r house
    if houseData.sub_type == "" && !r.showCurOutageParam then
      ⟨false, noOutageMsg addr r.updateTimestamp, r.updateTimestamp⟩
    else if houseData.sub_type == "" && r.showCurOutageParam then
      let all := r.data.map Prod.snd
      let activeEntries := all.filter isActive
      if activeEntries.length = 0 then
        ⟨false, noOutageMsg addr r.updateTimestamp, r.updateTimestamp⟩
      else
        let reasons := dedupKeepFirst
          ((activeEntries.flatMap (fun x => x.sub_type_reason)).filter (fun s => s != ""))
        let starts := (activeEntries.map (fun x => parseMaybe x.start_date)).filterMap id
        let ends := (activeEntries.map (fun x => parseMaybe x.end_date)).filterMap id
        ⟨true, streetLevelMsg addr r.updateTimestamp reasons (minKey starts) (maxKey ends),
          r.updateTimestamp⟩
    else
      ⟨true, houseLevelMsg addr r.updateTimestamp houseData, r.updateTimestamp⟩

/-- Function `getModeName` from the server: human-readable mode label. -/
def getModeName (mode : String) : String :=
  if mode == "none" then "Не настроен"
  else if mode == "ping" then "Только пинг"
  else if mode == "dtek_only" then "Только DTEK"
  else if mode == "full" then "Полный (DTEK + пинг)"
  else mode

/-- Function `notifyStatusChange`: the status message is handed to the send
queue unless the subscriber is suppressed (`ignored`); the pinned-message
refresh it also performs is display-only and not tracked. -/
def notifyStatusChange (row : Row) (statusMessage : String) : List String :=
  if row.ignored then [] else [statusMessage]

/-- Method `SheetsDB.saveLightState` (update path, columns `B..E`): writes
the liveness timestamp, the boolean state, the state start time and the
formatted previous duration (empty when `null` is passed). -/
def saveLightState (row : Row) (lastPingTime : Int) (lightState : Bool)
    (lightStartTime : Int) (previousDuration : Option Int) : Row :=
  { row with
      last_ping_time := some lastPingTime
      light_state := lightState
      light_start_time := some lightStartTime
      previous_duration := match previousDuration with
        | some d => formatDuration d
        | none => "" }

/-- Modelled from the spec: `SheetsDB.saveLightStatePreservePing`.  The final
sheets-layer iteration defining it is not among the source files; only its
callers are.  Per the spec's persistence contract and data model it upserts
`light_state`, `state_start_time` and `previous_duration` (formatted, empty
when no duration is supplied — exactly as the `saveLightState` present in the
sources renders its duration column) while leaving the liveness timestamp
untouched. -/
def saveLightStatePreservePing (row : Row) (lightState : Bool)
    (lightStartTime : Int) (previousDuration : Option Int) : Row :=
  { row with
      light_state := lightState
      light_start_time := some lightStartTime
      previous_duration := match previousDuration with
        | some d => formatDuration d
        | none => "" }

/-- Result of one `applyDtekSummary` call: the written row, the `changed`
flag, the summary message returned to the caller, and the notifications
requested. -/
structure ApplyResult where
  row : Row
  changed : Bool
  message : String
  notifications : List String
  deriving Repr, DecidableEq

/-- Function `applyDtekSummary` from the server: reconciles a stored row
against an Outage Summary.  Note the source computes
`changed = (summary.inferredOff === row.light_state)` — `inferredOff = true`
with the light stored as on, or `inferredOff = false` with it stored as off,
is a disagreement and triggers a transition. -/
def applyDtekSummary (row : Row) (summary : DtekSummary) (now : Int) : ApplyResult :=
  let startTime := parseDateTime row.light_start_time now
  let changed := summary.inferredOff == row.light_state
  if changed then
    if summary.inferredOff then
      { row := saveLightStatePreservePing row false now (some (now - startTime))
        changed := true
        message := summary.message
        notifications := notifyStatusChange row "🌑 Свет ВЫКЛЮЧЕН" }
    else
      { row := saveLightStatePreservePing row true now none
        changed := true
        message := summary.message
        notifications := notifyStatusChange row "💡 Свет ВКЛЮЧЕН" }
  else
    { row := saveLightStatePreservePing row row.light_state startTime none
      changed := false
      message := summary.message
      notifications := [] }

/-- Result of `getDtekInfo`: the (possibly rewritten) row, the text returned
to the caller, and whether the state-update write fired. -/
structure DtekInfoResult where
  row : Option Row
  text : String
  wrote : Bool
  deriving Repr, DecidableEq

/-- Final message assembly of `getDtekInfo` (`summary.message || fallback`,
optional mode header). -/
def renderDtekStatus (includeModeHeader : Bool) (mode : String) (summary : DtekSummary) : String :=
  let dtekStatus := if summary.message == "" then "Не удалось получить данные DTEK" else summary.message
  if includeModeHeader then "📡 Режим: " ++ getModeName mode ++ "\n\n" ++ dtekStatus
  else dtekStatus

/-- Function `getDtekInfo` from the server, as a function of the row it reads
back and of the Outage Summary `getDtekSummaryForRow` yields for that row
(the cache/fetch I/O lives outside the per-call model).  When `updateState`
is set, the mode is not `ping`, and the summary carries a parseable
freshness marker, it writes `light_state := !inferredOff` with the marker's
instant as the new start time — for any such mode, `full` included. -/
def getDtekInfo (row : Option Row) (updateState : Bool) (includeModeHeader : Bool)
    (summary : DtekSummary) : DtekInfoResult :=
  match row with
  | none => ⟨none, "Профиль не найден. Начните с команды /start", false⟩
  | some r =>
    let mode := determineMode (some r)
    if r.city == "" || r.street == "" then
      let base := "Для работы с DTEK укажите адрес с помощью команды /address"
      ⟨some r, if includeModeHeader then "📡 Режим: " ++ getModeName mode ++ "\n\n" ++ base else base, false⟩
    else if mode == "ping" then
      let lastPing := match r.last_ping_time with
        | some t => "\n⏱ Последний пинг: " ++ toString t
        | none => ""
      let body := "DTEK проверка отключена, так как настроен мониторинг устройства." ++ lastPing
      ⟨some r, if includeModeHeader then "📡 Режим: только пинг\n\n" ++ body else body, false⟩
    else
      match updateState, summary.updateTimestamp with
      | true, some t =>
        ⟨some (saveLightStatePreservePing r (!summary.inferredOff) t none),
          renderDtekStatus includeModeHeader mode summary, true⟩
      | _, _ => ⟨some r, renderDtekStatus includeModeHeader mode summary, false⟩

/-- Result of one `handlePingTimeout` call. -/
structure PingResult where
  row : Row
  switched : Bool
  notifications : List String
  deriving Repr, DecidableEq

/-- Guard `secs > PING_TIMEOUT_SEC` where `secondsSinceLastPing` is
`Number.POSITIVE_INFINITY` when no liveness timestamp is stored. -/
def secondsExceedTimeout (row : Row) (now : Int) : Bool :=
  match row.last_ping_time with
  | none => true
  | some t => decide (now - t > PING_TIMEOUT_SEC)

/-- Function `handlePingTimeout` from the server: the liveness-governed Off
transition.  `summary` stands for the outage summary the advisory
`getDtekInfo` call would obtain in `full` mode (informational only — that
call passes `updateState = false`). -/
def handlePingTimeout (row : Row) (now : Int) (mode : String) (summary : DtekSummary) : PingResult :=
  if secondsExceedTimeout row now && row.light_state then
    let onDuration := now - parseDateTime row.light_start_time now
    let row2 := saveLightState row now false now (some onDuration)
    let offNote := "🌑 Свет ВЫКЛЮЧЕН\n⏸ Был включен: " ++ formatDuration onDuration
    let base := notifyStatusChange row offNote
    let notifs :=
      if mode == "full" then
        base ++ ["📊 DTEK (авто):\n" ++ (getDtekInfo (some row) false false summary).text]
      else base
    ⟨row2, true, notifs⟩
  else
    ⟨row, false, []⟩

/-- Result of one per-row step of the reconciliation pass. -/
structure CheckResult where
  row : Row
  notifications : List String
  deriving Repr, DecidableEq

/-- Per-subscriber body of `checkLightsStatus` (the reconciliation pass).
`dtekDue` models `isDtekCheckDue` for this subscriber and `summary` the
outage summary `getDtekSummaryForRow` returns when consulted.  Mode
bookkeeping (`updateModeIfNeeded`) and pinned-message refresh are
display-side effects without influence on the stored light state and are not
tracked.  Note the source's first line:
`if (row.ignored || !row.city?.trim()) return;` — a row whose city cell is
empty is skipped before any mode dispatch. -/
def checkRowStatus (row : Row) (now : Int) (dtekDue : Bool) (summary : DtekSummary) : CheckResult :=
  if row.ignored || jsTrim row.city == "" then ⟨row, []⟩
  else
    let mode := determineMode (some row)
    if mode == "dtek_only" then
      if dtekDue then
        let res := applyDtekSummary row summary now
        if res.changed then ⟨res.row, res.notifications ++ ["📊 DTEK (авто):\n" ++ res.message]⟩
        else ⟨res.row, res.notifications⟩
      else ⟨row, []⟩
    else if mode == "full" || mode == "ping" then
      let res := handlePingTimeout row now mode summary
      ⟨res.row, res.notifications⟩
    else ⟨row, []⟩

/-- One entry of the `lastSentMessage` map. -/
structure LastSent where
  text : String
  t : Int
  deriving Repr, DecidableEq

/-- Function `sendMessageDedup` for one chat: given the chat's
`lastSentMessage` entry, the text, and the current time, returns the new
entry and whether a message was actually delivered (the source returns
`null` without sending in the suppressed case).  The window is the default
`dedupWindowMs = 10000` used by every call site. -/
def sendMessageDedup (prev : Option LastSent) (text : String) (now : Int) :
    Option LastSent × Bool :=
  match prev with
  | some p =>
    if p.text == text && decide (now - p.t < 10000) then (some p, false)
    else (some ⟨text, now⟩, true)
  | none => (some ⟨text, now⟩, true)

/-- One raw row of the `LightStates` sheet as stored (columns `A..K`),
before `parseRow` coerces the boolean-ish cells. -/
structure SheetRow where
  chat_id : String
  last_ping_time : String
  light_state : String
  light_start_time : String
  previous_duration : String
  pinned_message_id : String
  city : String
  street : String
  house_number : String
  ignored : String
  mode : String
  deriving Repr, DecidableEq

/-- Method `SheetsDB.saveAddress` on an existing row: one update of columns
`G..K` to `[city, street, houseNumber, 'FALSE', mode]`. -/
def saveAddress (row : SheetRow) (city street houseNumber mode : String) : SheetRow :=
  { row with
      city := city
      street := street
      house_number := houseNumber
      ignored := "FALSE"
      mode := mode }

/-- The four-argument `db.saveAddress(chatId, city, street, houseNumber)`
call the server uses: the omitted `mode` parameter takes its declared
default `'full'`. -/
def saveAddressDefaultMode (row : SheetRow) (city street houseNumber : String) : SheetRow :=
  saveAddress row city street houseNumber "full"

/-- Method `SheetsDB.setIgnored` via `updateField` on column `J`. -/
def setIgnored (row : SheetRow) (ignored : Bool) : SheetRow :=
  { row with ignored := if ignored then "TRUE" else "FALSE" }

/-- Boolean coercion `parseRow` applies to the `ignored` cell
(`row[9] && (row[9] === 'TRUE' || row[9] === 'true' || row[9] === true)`;
the `=== true` disjunct concerns a non-string cell the string model cannot
hold). -/
def parseIgnoredCell (s : String) : Bool :=
  s == "TRUE" || s == "true"

/-- One entry of the process-wide `dtekCache` map. -/
structure CacheEntry where
  v : DtekSummary
  t : Int
  deriving Repr, DecidableEq

/-- Key builder `dtekKey(city, street, house_number)`. -/
def dtekKey (city street house : String) : String :=
  city ++ "|" ++ street ++ "|" ++ house

/-- Replacement write `dtekCache.set(key, e)` on the association-list model
of the map. -/
def cacheSet (cache : List (String × CacheEntry)) (key : String) (e : CacheEntry) :
    List (String × CacheEntry) :=
  (key, e) :: cache.filter (fun p => p.1 != key)

/-- Function `getDtekSummaryCached` from the server: fresh entries are
returned without a fetch; with fetching disallowed a stale or missing entry
yields the cached value or `null`; otherwise `fetchAndSummarizeDtek` runs on
the given fetch outcome and its summary is cached (unconditionally — also
when the fetch failed) and returned. -/
def getDtekSummaryCached (cache : List (String × CacheEntry)) (city street house : String)
    (allowFetch : Bool) (now : Int) (outcome : FetchOutcome) :
    List (String × CacheEntry) × Option DtekSummary :=
  let key := dtekKey city street house
  match cache.lookup key with
  | some c =>
    if now - c.t < DTEK_CACHE_TTL_MS then (cache, some c.v)
    else if !allowFetch then (cache, some c.v)
    else
      let summary := fetchAndSummarizeDtek city street house outcome
      (cacheSet cache key ⟨summary, now⟩, some summary)
  | none =>
    if !allowFetch then (cache, none)
    else
      let summary := fetchAndSummarizeDtek city street house outcome
      (cacheSet cache key ⟨summary, now⟩, some summary)

/-- Helper: a successful association-list lookup certifies membership. -/
theorem mem_of_lookup_eq_some {l : List (String × HouseRecord)} {k : String}
    {v : HouseRecord} (h : l.lookup k = some v) : (k, v) ∈ l := by
  induction l with
  | nil => simp [List.lookup] at h
  | cons p tl ih =>
    rw [List.lookup] at h
    cases hk : (k == p.1) with
    | true =>
      rw [hk] at h
      cases h
      have : k = p.1 := by simpa using hk
      subst this
      exact List.mem_cons_self _ _
    | false =>
      rw [hk] at h
      exact List.mem_cons_of_mem _ (ih h)

/-- Helper: a filter whose predicate fails everywhere is empty. -/
theorem filter_eq_nil_of_all_false {α : Type} {p : α → Bool} {l : List α}
    (h : ∀ a ∈ l, p a = false) : l.filter p = [] := by
  induction l with
  | nil => rfl
  | cons x xs ih =>
    have hx := h x (List.mem_cons_self _ _)
    simp [List.filter, hx]
    intro a ha
    exact h a (List.mem_cons_of_mem _ ha)

/-- Helper: closed form of the classifier, used by several proofs. -/
theorem determineMode_eq (r : Row) :
    determineMode (some r) =
      if hasAddress r then (if hasPing r then "full" else "dtek_only")
      else (if hasPing r then "ping" else "none") := by
  unfold determineMode
  cases h1 : hasAddress r <;> cases h2 : hasPing r <;> simp [h1, h2]

/-- Helper: the `hh:mm:ss` decomposition loses nothing — the rendered fields
recombine to the exact (clamped) number of seconds. -/
theorem durationHMS_recombines (secs : Int) :
    3600 * (durationHMS secs).1 + 60 * (durationHMS secs).2.1 + (durationHMS secs).2.2
      = secs.toNat := by
  simp only [durationHMS]
  omega

/-- C5: a liveness-governed evaluation at `T1` of a record that is On since
`T0`, with a ping gap over the 180-second timeout, switches the record Off,
stamps `state_start_time = T1`, and stores `previous_duration` as the
rendering of exactly `T1 - T0` (the recombination conjunct makes the
"up to formatting rounding" reading precise). -/
theorem pingTimeout_transition_captures_duration (row : Row) (T0 T1 tp : Int)
    (mode : String) (summary : DtekSummary)
    (hOn : row.light_state = true)
    (hStart : row.light_start_time = some T0)
    (hPing : row.last_ping_time = some tp)
    (hGap : T1 - tp > 180) :
    (handlePingTimeout row T1 mode summary).switched = true ∧
    (handlePingTimeout row T1 mode summary).row.light_state = false ∧
    (handlePingTimeout row T1 mode summary).row.light_start_time = some T1 ∧
    (handlePingTimeout row T1 mode summary).row.previous_duration = formatDuration (T1 - T0) ∧
    3600 * (durationHMS (T1 - T0)).1 + 60 * (durationHMS (T1 - T0)).2.1 +
      (durationHMS (T1 - T0)).2.2 = (T1 - T0).toNat := by
  have hcond : secondsExceedTimeout row T1 = true := by
    simp only [secondsExceedTimeout, hPing, PING_TIMEOUT_SEC]
    exact decide_eq_true hGap
  refine ⟨?_, ?_, ?_, ?_, durationHMS_recombines _⟩ <;>
    simp [handlePingTimeout, hcond, hOn, saveLightState, parseDateTime, hStart]

/-- Witness for C5 at a concrete record: On since 0, last ping at 0,
evaluated at 1000 in ping mode. -/
theorem pingTimeout_transition_captures_duration_witness :
    ((1000 : Int) - 0 > 180) ∧
    ((handlePingTimeout ⟨"1", some 0, true, some 0, "", "", "", "", "", false, "ping"⟩
        1000 "ping" ⟨false, "", none⟩).switched = true ∧
     (handlePingTimeout ⟨"1", some 0, true, some 0, "", "", "", "", "", false, "ping"⟩
        1000 "ping" ⟨false, "", none⟩).row.light_state = false ∧
     (handlePingTimeout ⟨"1", some 0, true, some 0, "", "", "", "", "", false, "ping"⟩
        1000 "ping" ⟨false, "", none⟩).row.light_start_time = some 1000 ∧
     (handlePingTimeout ⟨"1", some 0, true, some 0, "", "", "", "", "", false, "ping"⟩
        1000 "ping" ⟨false, "", none⟩).row.previous_duration = formatDuration (1000 - 0) ∧
     3600 * (durationHMS ((1000 : Int) - 0)).1 + 60 * (durationHMS ((1000 : Int) - 0)).2.1 +
       (durationHMS ((1000 : Int) - 0)).2.2 = ((1000 : Int) - 0).toNat) :=
  ⟨by decide,
   pingTimeout_transition_captures_duration
     ⟨"1", some 0, true, some 0, "", "", "", "", "", false, "ping"⟩
     0 1000 0 "ping" ⟨false, "", none⟩ rfl rfl rfl (by decide)⟩

/-- C6: a street map whose street-level current-outage flag is set but in
which every house record has literally empty type, start and end fields
(hence zero active entries) is interpreted as `inferredOff = false`. -/
theorem streetFlag_without_active_entries_no_outage (city street house : String)
    (r : FetchResult)
    (hFlag : r.showCurOutageParam = true)
    (hEmpty : ∀ p ∈ r.data, p.2.sub_type = "" ∧ p.2.start_date = "" ∧ p.2.end_date = "") :
    (fetchAndSummarizeDtek city street house (FetchOutcome.success r)).inferredOff = false := by
  have hHouse : (houseDataOf r house).sub_type = "" := by
    unfold houseDataOf
    cases h : r.data.lookup (keyToUse r house) with
    | none => rfl
    | some v =>
      have hv := hEmpty _ (mem_of_lookup_eq_some h)
      simpa using hv.1
  have hFilt : (r.data.map Prod.snd).filter isActive = [] := by
    apply filter_eq_nil_of_all_false
    intro x hx
    rcases List.mem_map.mp hx with ⟨p, hp, rfl⟩
    have h3 := hEmpty p hp
    simp [isActive, h3.1, h3.2.1, h3.2.2]
    decide
  simp [fetchAndSummarizeDtek, hFlag, hHouse, hFilt]

/-- Witness for C6: one house record with all-empty fields behind a raised
street flag. -/
theorem streetFlag_without_active_entries_no_outage_witness :
    ((⟨[("12", emptyHouseRecord)], some 1, none, true⟩ : FetchResult).showCurOutageParam = true) ∧
    (∀ p ∈ (⟨[("12", emptyHouseRecord)], some 1, none, true⟩ : FetchResult).data,
      p.2.sub_type = "" ∧ p.2.start_date = "" ∧ p.2.end_date = "") ∧
    (fetchAndSummarizeDtek "c" "s" "12"
      (FetchOutcome.success ⟨[("12", emptyHouseRecord)], some 1, none, true⟩)).inferredOff = false :=
  ⟨rfl, by decide,
   streetFlag_without_active_entries_no_outage "c" "s" "12" _ rfl (by decide)⟩

/-- Concrete outage-only subscriber stored as Off since instant 100. -/
def rowOffSince100 : Row :=
  ⟨"2", none, false, some 100, "", "", "c", "s", "", false, "dtek_only"⟩

/-- C2, counterexample: on the Off-to-On disagreement (summary says power is
on, store says off) the reconciler writes an EMPTY `previous_duration`, not
the duration `now - state_start_time` of the just-closed Off state, because
the source passes `null` for the duration in that direction. -/
theorem applyDtek_offToOn_counterexample :
    (applyDtekSummary rowOffSince100 ⟨false, "m", some 1⟩ 500).changed = true ∧
    (applyDtekSummary rowOffSince100 ⟨false, "m", some 1⟩ 500).row.previous_duration = "" ∧
    formatDuration (500 - 100) = "00:06:40" ∧
    (applyDtekSummary rowOffSince100 ⟨false, "m", some 1⟩ 500).row.previous_duration ≠
      formatDuration (500 - 100) := by
  refine ⟨rfl, rfl, rfl, ?_⟩
  decide

/-- C2 as amended: on disagreement the reconciler flips `light_state`, sets
`state_start_time := now` and requests a notification in both directions,
but `previous_duration` receives the just-closed duration only on the
On-to-Off transition; the Off-to-On transition stores it empty. -/
theorem applyDtek_disagreement_transition (row : Row) (s : DtekSummary) (now T0 : Int)
    (hStart : row.light_start_time = some T0)
    (hDis : s.inferredOff = row.light_state)
    (hNotIgnored : row.ignored = false) :
    (applyDtekSummary row s now).changed = true ∧
    (applyDtekSummary row s now).row.light_state = !row.light_state ∧
    (applyDtekSummary row s now).row.light_start_time = some now ∧
    (applyDtekSummary row s now).notifications ≠ [] ∧
    (s.inferredOff = true →
      (applyDtekSummary row s now).row.previous_duration = formatDuration (now - T0)) ∧
    (s.inferredOff = false →
      (applyDtekSummary row s now).row.previous_duration = "") := by
  cases hb : row.light_state with
  | false =>
    have hI : s.inferredOff = false := by rw [hDis, hb]
    refine ⟨?_, ?_, ?_, ?_, ?_, ?_⟩ <;>
      simp [applyDtekSummary, hI, hb, saveLightStatePreservePing, notifyStatusChange,
        hNotIgnored, parseDateTime, hStart]
  | true =>
    have hI : s.inferredOff = true := by rw [hDis, hb]
    refine ⟨?_, ?_, ?_, ?_, ?_, ?_⟩ <;>
      simp [applyDtekSummary, hI, hb, saveLightStatePreservePing, notifyStatusChange,
        hNotIgnored, parseDateTime, hStart]

/-- Witness for the amended C2 at the concrete Off-since-100 subscriber. -/
theorem applyDtek_disagreement_transition_witness :
    (rowOffSince100.light_start_time = some 100 ∧
     (⟨false, "m", some 1⟩ : DtekSummary).inferredOff = rowOffSince100.light_state ∧
     rowOffSince100.ignored = false) ∧
    ((applyDtekSummary rowOffSince100 ⟨false, "m", some 1⟩ 500).changed = true ∧
     (applyDtekSummary rowOffSince100 ⟨false, "m", some 1⟩ 500).row.light_state =
       !rowOffSince100.light_state ∧
     (applyDtekSummary rowOffSince100 ⟨false, "m", some 1⟩ 500).row.light_start_time = some 500 ∧
     (applyDtekSummary rowOffSince100 ⟨false, "m", some 1⟩ 500).notifications ≠ [] ∧
     ((⟨false, "m", some 1⟩ : DtekSummary).inferredOff = true →
       (applyDtekSummary rowOffSince100 ⟨false, "m", some 1⟩ 500).row.previous_duration =
         formatDuration (500 - 100)) ∧
     ((⟨false, "m", some 1⟩ : DtekSummary).inferredOff = false →
       (applyDtekSummary rowOffSince100 ⟨false, "m", some 1⟩ 500).row.previous_duration = "")) :=
  ⟨⟨rfl, rfl, rfl⟩,
   applyDtek_disagreement_transition rowOffSince100 ⟨false, "m", some 1⟩ 500 100 rfl rfl rfl⟩

/-- C1, code bug: a failed outage fetch produces the neutral
`inferredOff = false` summary (first conjunct — this half of the claim
holds), but a reconciliation pass that applies this summary to an
outage-only subscriber whose stored `light_state` is `false` flips the
subscriber to `true` and emits a power-restored notification, because
`applyDtekSummary` treats `inferredOff = false` against a stored Off as a
disagreement and cannot tell a failure summary from a genuine "no outage"
(the on-demand `getDtekInfo` path, by contrast, refuses to write state when
the summary lacks a freshness marker). -/
theorem failedFetch_flips_off_subscriber_on :
    (fetchAndSummarizeDtek "c" "s" "" FetchOutcome.failure).inferredOff = false ∧
    determineMode (some rowOffSince100) = "dtek_only" ∧
    rowOffSince100.light_state = false ∧
    (checkRowStatus rowOffSince100 500 true
      (fetchAndSummarizeDtek "c" "s" "" FetchOutcome.failure)).row.light_state = true ∧
    (checkRowStatus rowOffSince100 500 true
      (fetchAndSummarizeDtek "c" "s" "" FetchOutcome.failure)).notifications ≠ [] := by
  refine ⟨rfl, ?_, rfl, ?_, ?_⟩ <;> decide

/-- Concrete ping-only subscriber: liveness timestamp present, no address,
On since 0, last ping at 0, not suppressed. -/
def rowPingOnly : Row :=
  ⟨"9", some 0, true, some 0, "", "", "", "", "", false, "ping"⟩

/-- C4, code bug: the reconciliation pass guard
`if (row.ignored || !row.city?.trim()) return;` skips every subscriber whose
city cell is empty, so a non-suppressed ping-only subscriber (no address)
whose ping gap exceeds the timeout while On is left untouched by the pass —
even though `handlePingTimeout`, which the pass never reaches for such a
row, would transition it to Off. -/
theorem pass_skips_addressless_ping_subscriber :
    determineMode (some rowPingOnly) = "ping" ∧
    rowPingOnly.ignored = false ∧
    secondsExceedTimeout rowPingOnly 1000 = true ∧
    (checkRowStatus rowPingOnly 1000 true ⟨false, "", none⟩).row = rowPingOnly ∧
    (checkRowStatus rowPingOnly 1000 true ⟨false, "", none⟩).notifications = [] ∧
    (handlePingTimeout rowPingOnly 1000 "ping" ⟨false, "", none⟩).switched = true ∧
    (handlePingTimeout rowPingOnly 1000 "ping" ⟨false, "", none⟩).row.light_state = false := by
  refine ⟨?_, rfl, ?_, ?_, ?_, ?_, ?_⟩ <;> decide

/-- Helper: a `full` classification certifies both predicates. -/
theorem mode_full_fields {r : Row} (h : determineMode (some r) = "full") :
    hasAddress r = true ∧ hasPing r = true := by
  have he := determineMode_eq r
  rw [h] at he
  cases h1 : hasAddress r with
  | true =>
    cases h2 : hasPing r with
    | true => exact ⟨rfl, rfl⟩
    | false => rw [h1, h2] at he; simp at he
  | false =>
    cases h2 : hasPing r with
    | true => rw [h1, h2] at he; simp at he
    | false => rw [h1, h2] at he; simp at he

/-- Helper: a string with a non-empty trim is non-empty. -/
theorem ne_empty_of_jsTrim_ne_empty {s : String} (h : jsTrim s ≠ "") : s ≠ "" := by
  intro he
  subst he
  exact h (by decide)

/-- Helper: `hasAddress` certifies non-empty city and street cells. -/
theorem hasAddress_fields {r : Row} (h : hasAddress r = true) :
    r.city ≠ "" ∧ r.street ≠ "" ∧ jsTrim r.city ≠ "" := by
  have hp := h
  unfold hasAddress at hp
  rw [Bool.and_eq_true] at hp
  have hc : jsTrim r.city ≠ "" := by simpa [bne_iff_ne] using hp.1
  have hs : jsTrim r.street ≠ "" := by simpa [bne_iff_ne] using hp.2
  exact ⟨ne_empty_of_jsTrim_ne_empty hc, ne_empty_of_jsTrim_ne_empty hs, hc⟩

/-- Concrete full-mode subscriber: address and liveness both present, stored
On. -/
def rowFullOn : Row :=
  ⟨"5", some 400, true, some 0, "", "", "c", "s", "", false, "full"⟩

/-- C3, counterexample: for a full-mode subscriber the on-demand outage
query with state update enabled (`/dtek` calls `getDtekInfo(chatId, true)`)
writes a `light_state` derived from the outage scrape: an
`inferredOff = true` summary flips the stored On to Off. -/
theorem fullMode_dtek_query_writes_outage_state :
    determineMode (some rowFullOn) = "full" ∧
    rowFullOn.light_state = true ∧
    (getDtekInfo (some rowFullOn) true true ⟨true, "outage", some 999⟩).wrote = true ∧
    ((getDtekInfo (some rowFullOn) true true ⟨true, "outage", some 999⟩).row.map
      Row.light_state) = some false := by
  refine ⟨?_, rfl, ?_, ?_⟩ <;> decide

/-- C3 as amended: in `full` mode the periodic reconciliation pass derives
its write purely from the liveness signal — the row it stores is the same
whatever outage summary is supplied — but the on-demand outage query with
`updateState = true` writes `light_state = !inferredOff` (with the summary's
freshness instant as the new start time) for any mode other than `ping`,
`full` included. -/
theorem fullMode_liveness_governs_pass_but_query_writes
    (row : Row) (s1 s2 s : DtekSummary) (now t : Int) (due : Bool)
    (hFull : determineMode (some row) = "full")
    (hTs : s.updateTimestamp = some t) :
    (checkRowStatus row now due s1).row = (checkRowStatus row now due s2).row ∧
    (getDtekInfo (some row) true true s).wrote = true ∧
    ((getDtekInfo (some row) true true s).row.map Row.light_state) =
      some (!s.inferredOff) := by
  have hA := (mode_full_fields hFull).1
  obtain ⟨hc, hs, hct⟩ := hasAddress_fields hA
  refine ⟨?_, ?_, ?_⟩
  · by_cases hIg : row.ignored
    · simp [checkRowStatus, hIg]
    · cases hc2 : (secondsExceedTimeout row now && row.light_state) <;>
        simp [checkRowStatus, hIg, hct, hFull, handlePingTimeout, hc2]
  · simp [getDtekInfo, hFull, hTs, hc, hs]
  · simp [getDtekInfo, hFull, hTs, hc, hs, saveLightStatePreservePing]

/-- Witness for the amended C3 at the concrete full-mode subscriber, two
distinct summaries for the pass, and an `inferredOff = true` summary with
freshness instant 999 for the query. -/
theorem fullMode_liveness_governs_pass_but_query_writes_witness :
    (determineMode (some rowFullOn) = "full" ∧
     (⟨true, "outage", some 999⟩ : DtekSummary).updateTimestamp = some 999) ∧
    ((checkRowStatus rowFullOn 1000 true ⟨false, "a", none⟩).row =
       (checkRowStatus rowFullOn 1000 true ⟨true, "b", some 7⟩).row ∧
     (getDtekInfo (some rowFullOn) true true ⟨true, "outage", some 999⟩).wrote = true ∧
     ((getDtekInfo (some rowFullOn) true true ⟨true, "outage", some 999⟩).row.map
       Row.light_state) = some (!(⟨true, "outage", some 999⟩ : DtekSummary).inferredOff)) :=
  ⟨⟨by decide, rfl⟩,
   fullMode_liveness_governs_pass_but_query_writes rowFullOn
     ⟨false, "a", none⟩ ⟨true, "b", some 7⟩ ⟨true, "outage", some 999⟩
     1000 999 true (by decide) rfl⟩

/-- Stale cached summary used in the C8 scenario: a real outage result. -/
def staleOutageSummary : DtekSummary := ⟨true, "outage", some 1⟩

/-- The summary `fetchAndSummarizeDtek` returns when the fetch throws. -/
def failureSummary : DtekSummary := ⟨false, "Ошибка при получении данных.", none⟩

/-- C8, counterexample: with a stale cached entry and a failing refresh
fetch, the neutral failure summary replaces the stale entry in the cache and
is what the caller receives — the stale summary is not retained. -/
theorem staleCache_fetchFailure_replaces_counterexample :
    (getDtekSummaryCached [(dtekKey "c" "s" "1", ⟨staleOutageSummary, 0⟩)] "c" "s" "1"
      true 900000 FetchOutcome.failure).2 = some failureSummary ∧
    ((getDtekSummaryCached [(dtekKey "c" "s" "1", ⟨staleOutageSummary, 0⟩)] "c" "s" "1"
      true 900000 FetchOutcome.failure).1.lookup (dtekKey "c" "s" "1")) =
      some ⟨failureSummary, 900000⟩ ∧
    (getDtekSummaryCached [(dtekKey "c" "s" "1", ⟨staleOutageSummary, 0⟩)] "c" "s" "1"
      true 900000 FetchOutcome.failure).2 ≠ some staleOutageSummary := by
  refine ⟨?_, ?_, ?_⟩ <;> decide

/-- C8 as amended: when the cached entry for a key is stale and the refresh
fetch fails, the neutral `inferred_off = false` failure summary is cached in
place of the stale entry and returned; the stale entry is retained-and-reused
only by cache-only lookups (`allowFetch = false`), which also return it
unchanged. -/
theorem staleCache_fetchFailure_caches_neutral (cache : List (String × CacheEntry))
    (city street house : String) (now : Int) (c : CacheEntry)
    (hLookup : cache.lookup (dtekKey city street house) = some c)
    (hStale : ¬(now - c.t < DTEK_CACHE_TTL_MS)) :
    (getDtekSummaryCached cache city street house true now FetchOutcome.failure).2 =
      some failureSummary ∧
    ((getDtekSummaryCached cache city street house true now FetchOutcome.failure).1.lookup
      (dtekKey city street house)) = some ⟨failureSummary, now⟩ ∧
    getDtekSummaryCached cache city street house false now FetchOutcome.failure =
      (cache, some c.v) := by
  refine ⟨?_, ?_, ?_⟩ <;>
    simp [getDtekSummaryCached, hLookup, hStale, fetchAndSummarizeDtek, failureSummary,
      cacheSet, List.lookup]

/-- Witness for the amended C8 at a concrete one-entry stale cache. -/
theorem staleCache_fetchFailure_caches_neutral_witness :
    (([(dtekKey "c" "s" "1", (⟨staleOutageSummary, 0⟩ : CacheEntry))].lookup
        (dtekKey "c" "s" "1") = some (⟨staleOutageSummary, 0⟩ : CacheEntry)) ∧
     ¬(((900000 : Int) - (0 : Int)) < DTEK_CACHE_TTL_MS)) ∧
    ((getDtekSummaryCached [(dtekKey "c" "s" "1", ⟨staleOutageSummary, 0⟩)] "c" "s" "1"
        true 900000 FetchOutcome.failure).2 = some failureSummary ∧
     ((getDtekSummaryCached [(dtekKey "c" "s" "1", ⟨staleOutageSummary, 0⟩)] "c" "s" "1"
        true 900000 FetchOutcome.failure).1.lookup (dtekKey "c" "s" "1")) =
        some ⟨failureSummary, 900000⟩ ∧
     getDtekSummaryCached [(dtekKey "c" "s" "1", ⟨staleOutageSummary, 0⟩)] "c" "s" "1"
        false 900000 FetchOutcome.failure =
        ([(dtekKey "c" "s" "1", ⟨staleOutageSummary, 0⟩)],
         some (⟨staleOutageSummary, 0⟩ : CacheEntry).v)) :=
  ⟨⟨by decide, by decide⟩,
   staleCache_fetchFailure_caches_neutral
     [(dtekKey "c" "s" "1", ⟨staleOutageSummary, 0⟩)] "c" "s" "1" 900000
     ⟨staleOutageSummary, 0⟩ (by decide) (by decide)⟩

/-- C9: two identical texts sent to the same chat within the 10-second dedup
window deliver exactly once — the first send goes out, the second request
returns without sending and leaves the dedup entry untouched. -/
theorem dedup_suppresses_identical_within_window (text : String) (t1 t2 : Int)
    (h : t2 - t1 < 10000) :
    (sendMessageDedup none text t1).2 = true ∧
    (sendMessageDedup (sendMessageDedup none text t1).1 text t2).2 = false ∧
    (sendMessageDedup (sendMessageDedup none text t1).1 text t2).1 =
      (sendMessageDedup none text t1).1 := by
  refine ⟨rfl, ?_, ?_⟩ <;> simp [sendMessageDedup, h]

/-- Witness for C9: text "x" at instants 0 and 5000. -/
theorem dedup_suppresses_identical_within_window_witness :
    (((5000 : Int) - (0 : Int)) < 10000) ∧
    ((sendMessageDedup none "x" 0).2 = true ∧
     (sendMessageDedup (sendMessageDedup none "x" 0).1 "x" 5000).2 = false ∧
     (sendMessageDedup (sendMessageDedup none "x" 0).1 "x" 5000).1 =
       (sendMessageDedup none "x" 0).1) :=
  ⟨by decide, dedup_suppresses_identical_within_window "x" 0 5000 (by decide)⟩

/-- C10: saving an address for an existing, previously suppressed subscriber
rewrites columns `G..K` in one update, forcing the `ignored` cell back to
`'FALSE'` (parsed as un-suppressed) and the `mode` cell to the default
`'full'` — address entry silently re-enables notifications. -/
theorem saveAddress_unsuppresses_and_overwrites_mode (row : SheetRow)
    (city street house : String) :
    (setIgnored row true).ignored = "TRUE" ∧
    (saveAddressDefaultMode (setIgnored row true) city street house).ignored = "FALSE" ∧
    parseIgnoredCell
      (saveAddressDefaultMode (setIgnored row true) city street house).ignored = false ∧
    (saveAddressDefaultMode (setIgnored row true) city street house).mode = "full" := by
  refine ⟨rfl, rfl, ?_, rfl⟩
  simp [saveAddressDefaultMode, saveAddress, setIgnored, parseIgnoredCell]
